import Mathlib

/-
Verification of the text-protocol adapter of memcached-rs
(src/src/proto/text.rs) against its natural-language specification.

The adapter in src/src/proto/text.rs is a stub: the struct TextProto holds
only the underlying stream, and every method of the six operation contracts
(Operation, ServerOperation, MultiOperation, NoReplyOperation, CasOperation,
AuthOperation) immediately aborts via a Rust panic carrying a fixed message.
We embed the file shallowly: each method becomes a Lean function returning a
PanicOr outcome (a panic with its message, or a normal result) paired with
the list of stream actions (reads, writes, flushes) the method performed
before returning; the stub performs none.  Types that the file imports from
elsewhere in the repository (proto::textdef::Status, proto::MemCachedResult,
proto::AuthResponse) or from external crates (semver::Version) are not under
src/ and are modelled from the specification where needed.
-/

set_option linter.unusedVariables false

namespace Memcached

/-- Modelled from the spec: the Status enumeration is re-exported from
proto/textdef.rs, which is not under src/.  The spec (section 3) gives the
closed enumeration of outcomes: Stored, NotStored, Exists, NotFound,
Deleted, Touched, Ok, ClientError(detail), ServerError(detail),
ProtocolError, Unsupported.  Detail messages are byte lines, embedded as
lists of characters. -/
inductive Status where
  | Stored
  | NotStored
  | Exists
  | NotFound
  | Deleted
  | Touched
  | Ok
  | ClientError (msg : List Char)
  | ServerError (msg : List Char)
  | ProtocolError
  | Unsupported
deriving DecidableEq

/-- Modelled from the spec: Status::desc() lives in proto/textdef.rs, which
is not under src/.  It yields a static human-readable description of each
status; the exact wording is not fixed by the spec, only that from_status
stores exactly status.desc(), which is all the claims use. -/
def Status.desc : Status → String
  | .Stored => ("stored")
  | .NotStored => ("not stored")
  | .Exists => ("exists")
  | .NotFound => ("not found")
  | .Deleted => ("deleted")
  | .Touched => ("touched")
  | .Ok => ("ok")
  | .ClientError _ => ("client error")
  | .ServerError _ => ("server error")
  | .ProtocolError => ("protocol error")
  | .Unsupported => ("unsupported")

/-- Modelled from the spec: the error kind carried by proto::MemCachedResult
(proto/mod.rs is not under src/).  Section 7 gives the taxonomy: Io,
Protocol, Status, Server, Client, Unsupported, Poisoned; section 3 adds
InvalidArgument for locally rejected inputs. -/
inductive ProtoError where
  | ioFailure
  | protocolFailure
  | statusFailure (s : Status)
  | serverFailure (msg : List Char)
  | clientFailure (msg : List Char)
  | unsupported
  | poisoned
  | invalidArgument
deriving DecidableEq

/-- Modelled from the spec: proto::MemCachedResult of T is Result of T and
the protocol error type (proto/mod.rs is not under src/). -/
inductive MemCachedResult (α : Type) where
  | ok (value : α)
  | err (e : ProtoError)
deriving DecidableEq

/-- Modelled from the spec: the semantic-version value returned by the
version operation (the semver crate is external to the repository).  Only
its existence as a return type matters here: the stub never constructs
one. -/
structure Version where
  major : Nat
  minor : Nat
  patch : Nat
deriving DecidableEq

/-- Modelled from the spec: proto::AuthResponse (proto/mod.rs is not under
src/).  Only its existence as a return type matters here: the stub never
constructs one, so it is embedded as an empty type. -/
inductive AuthResponse : Type

instance : DecidableEq AuthResponse := fun a => nomatch a

/-- One observable action on the underlying stream.  Every embedded method
returns, alongside its outcome, the list of stream actions it performed; in
the stub under src/ every method aborts before touching the stream, so every
such list is empty. -/
inductive StreamAction where
  | readBytes (bytes : List Nat)
  | writeBytes (bytes : List Nat)
  | flushStream
deriving DecidableEq

/-- Outcome of running a Rust function that may abort: either a panic
carrying its message, or a normal return value. -/
inductive PanicOr (α : Type) where
  | panics (msg : String)
  | ok (value : α)
deriving DecidableEq

/-- Embedding of the struct TextProto of src/src/proto/text.rs (lines
67-69): the adapter owns exactly one stream and nothing else — in
particular, no poisoned flag. -/
structure TextProto (T : Type) where
  stream : T

variable {T : Type}

/-- Embedding of TextProto::new (text.rs lines 72-74): a plain struct
literal.  It is total (never fails) and the returned action list witnesses
that no stream I/O is performed. -/
def TextProto.new (stream : T) : TextProto T × List StreamAction :=
  ({ stream := stream }, [])

/-- Embedding of the private helper TextProto::send_noop (text.rs lines
76-78). -/
def TextProto.send_noop (p : TextProto T) :
    PanicOr (MemCachedResult Nat) × List StreamAction :=
  (.panics ("NoOp command no supported for text protocol."), [])

/-- Embedding of Operation::set for TextProto (text.rs lines 82-84). -/
def TextProto.set (p : TextProto T) (key value : List Nat) (flags expiration : Nat) :
    PanicOr (MemCachedResult Unit) × List StreamAction :=
  (.panics ("Set command no supported for text protocol."), [])

/-- Embedding of Operation::add for TextProto (text.rs lines 86-88). -/
def TextProto.add (p : TextProto T) (key value : List Nat) (flags expiration : Nat) :
    PanicOr (MemCachedResult Unit) × List StreamAction :=
  (.panics ("Add command no supported for text protocol."), [])

/-- Embedding of Operation::delete for TextProto (text.rs lines 90-92). -/
def TextProto.delete (p : TextProto T) (key : List Nat) :
    PanicOr (MemCachedResult Unit) × List StreamAction :=
  (.panics ("Delete command no supported for text protocol."), [])

/-- Embedding of Operation::replace for TextProto (text.rs lines 94-96). -/
def TextProto.replace (p : TextProto T) (key value : List Nat) (flags expiration : Nat) :
    PanicOr (MemCachedResult Unit) × List StreamAction :=
  (.panics ("Replace command no supported for text protocol."), [])

/-- Embedding of Operation::get for TextProto (text.rs lines 98-100). -/
def TextProto.get (p : TextProto T) (key : List Nat) :
    PanicOr (MemCachedResult (List Nat × Nat)) × List StreamAction :=
  (.panics ("get command no supported for text protocol."), [])

/-- Embedding of Operation::getk for TextProto (text.rs lines 102-104). -/
def TextProto.getk (p : TextProto T) (key : List Nat) :
    PanicOr (MemCachedResult (List Nat × List Nat × Nat)) × List StreamAction :=
  (.panics ("getk command no supported for text protocol."), [])

/-- Embedding of Operation::increment for TextProto (text.rs lines 106-108). -/
def TextProto.increment (p : TextProto T) (key : List Nat) (amount initial : Nat)
    (expiration : Nat) :
    PanicOr (MemCachedResult Nat) × List StreamAction :=
  (.panics ("increment command no supported for text protocol."), [])

/-- Embedding of Operation::decrement for TextProto (text.rs lines 110-112). -/
def TextProto.decrement (p : TextProto T) (key : List Nat) (amount initial : Nat)
    (expiration : Nat) :
    PanicOr (MemCachedResult Nat) × List StreamAction :=
  (.panics ("decrement command no supported for text protocol."), [])

/-- Embedding of Operation::append for TextProto (text.rs lines 114-116). -/
def TextProto.append (p : TextProto T) (key value : List Nat) :
    PanicOr (MemCachedResult Unit) × List StreamAction :=
  (.panics ("append command no supported for text protocol."), [])

/-- Embedding of Operation::prepend for TextProto (text.rs lines 118-120). -/
def TextProto.prepend (p : TextProto T) (key value : List Nat) :
    PanicOr (MemCachedResult Unit) × List StreamAction :=
  (.panics ("prepend command no supported for text protocol."), [])

/-- Embedding of Operation::touch for TextProto (text.rs lines 122-124). -/
def TextProto.touch (p : TextProto T) (key : List Nat) (expiration : Nat) :
    PanicOr (MemCachedResult Unit) × List StreamAction :=
  (.panics ("touch command no supported for text protocol."), [])

/-- Embedding of ServerOperation::quit for TextProto (text.rs lines 128-130). -/
def TextProto.quit (p : TextProto T) :
    PanicOr (MemCachedResult Unit) × List StreamAction :=
  (.panics ("quit command no supported for text protocol."), [])

/-- Embedding of ServerOperation::flush for TextProto (text.rs lines 132-134). -/
def TextProto.flush (p : TextProto T) (expiration : Nat) :
    PanicOr (MemCachedResult Unit) × List StreamAction :=
  (.panics ("flush command no supported for text protocol."), [])

/-- Embedding of ServerOperation::noop for TextProto (text.rs lines 136-138). -/
def TextProto.noop (p : TextProto T) :
    PanicOr (MemCachedResult Unit) × List StreamAction :=
  (.panics ("noop command no supported for text protocol."), [])

/-- Embedding of ServerOperation::version for TextProto (text.rs lines 140-142). -/
def TextProto.version (p : TextProto T) :
    PanicOr (MemCachedResult Version) × List StreamAction :=
  (.panics ("version command no supported for text protocol."), [])

/-- Embedding of ServerOperation::stat for TextProto (text.rs lines 144-146);
the BTreeMap result is embedded as an association list. -/
def TextProto.stat (p : TextProto T) :
    PanicOr (MemCachedResult (List (String × String))) × List StreamAction :=
  (.panics ("stat command no supported for text protocol."), [])

/-- Embedding of MultiOperation::set_multi for TextProto (text.rs lines
150-152); the BTreeMap argument is embedded as an association list. -/
def TextProto.set_multi (p : TextProto T)
    (kv : List (List Nat × (List Nat × Nat × Nat))) :
    PanicOr (MemCachedResult Unit) × List StreamAction :=
  (.panics ("set_multi command no supported for text protocol."), [])

/-- Embedding of MultiOperation::delete_multi for TextProto (text.rs lines
154-156). -/
def TextProto.delete_multi (p : TextProto T) (keys : List (List Nat)) :
    PanicOr (MemCachedResult Unit) × List StreamAction :=
  (.panics ("delete_multi command no supported for text protocol."), [])

/-- Embedding of MultiOperation::increment_multi for TextProto (text.rs
lines 158-163); the HashMaps are embedded as association lists. -/
def TextProto.increment_multi (p : TextProto T)
    (kv : List (List Nat × (Nat × Nat × Nat))) :
    PanicOr (MemCachedResult (List (List Nat × Nat))) × List StreamAction :=
  (.panics ("increment_multi command no supported for text protocol."), [])

/-- Embedding of MultiOperation::get_multi for TextProto (text.rs lines
165-167); the HashMap result is embedded as an association list. -/
def TextProto.get_multi (p : TextProto T) (keys : List (List Nat)) :
    PanicOr (MemCachedResult (List (List Nat × (List Nat × Nat)))) × List StreamAction :=
  (.panics ("get_multi command no supported for text protocol."), [])

/-- Embedding of NoReplyOperation::set_noreply for TextProto (text.rs lines
171-173). -/
def TextProto.set_noreply (p : TextProto T) (key value : List Nat)
    (flags expiration : Nat) :
    PanicOr (MemCachedResult Unit) × List StreamAction :=
  (.panics ("set_noreply command no supported for text protocol."), [])

/-- Embedding of NoReplyOperation::add_noreply for TextProto (text.rs lines
175-177). -/
def TextProto.add_noreply (p : TextProto T) (key value : List Nat)
    (flags expiration : Nat) :
    PanicOr (MemCachedResult Unit) × List StreamAction :=
  (.panics ("add_noreply command no supported for text protocol."), [])

/-- Embedding of NoReplyOperation::delete_noreply for TextProto (text.rs
lines 179-181). -/
def TextProto.delete_noreply (p : TextProto T) (key : List Nat) :
    PanicOr (MemCachedResult Unit) × List StreamAction :=
  (.panics ("delete_noreply command no supported for text protocol."), [])

/-- Embedding of NoReplyOperation::replace_noreply for TextProto (text.rs
lines 183-185). -/
def TextProto.replace_noreply (p : TextProto T) (key value : List Nat)
    (flags expiration : Nat) :
    PanicOr (MemCachedResult Unit) × List StreamAction :=
  (.panics ("replace_noreply command no supported for text protocol."), [])

/-- Embedding of NoReplyOperation::increment_noreply for TextProto (text.rs
lines 187-189). -/
def TextProto.increment_noreply (p : TextProto T) (key : List Nat)
    (amount initial : Nat) (expiration : Nat) :
    PanicOr (MemCachedResult Unit) × List StreamAction :=
  (.panics ("increment_noreply command no supported for text protocol."), [])

/-- Embedding of NoReplyOperation::decrement_noreply for TextProto (text.rs
lines 191-193). -/
def TextProto.decrement_noreply (p : TextProto T) (key : List Nat)
    (amount initial : Nat) (expiration : Nat) :
    PanicOr (MemCachedResult Unit) × List StreamAction :=
  (.panics ("decrement_noreply command no supported for text protocol."), [])

/-- Embedding of NoReplyOperation::append_noreply for TextProto (text.rs
lines 195-197). -/
def TextProto.append_noreply (p : TextProto T) (key value : List Nat) :
    PanicOr (MemCachedResult Unit) × List StreamAction :=
  (.panics ("append_noreply command no supported for text protocol."), [])

/-- Embedding of NoReplyOperation::prepend_noreply for TextProto (text.rs
lines 199-201). -/
def TextProto.prepend_noreply (p : TextProto T) (key value : List Nat) :
    PanicOr (MemCachedResult Unit) × List StreamAction :=
  (.panics ("prepend_noreply command no supported for text protocol."), [])

/-- Embedding of CasOperation::set_cas for TextProto (text.rs lines 205-207). -/
def TextProto.set_cas (p : TextProto T) (key value : List Nat)
    (flags expiration cas : Nat) :
    PanicOr (MemCachedResult Nat) × List StreamAction :=
  (.panics ("set_cas command no supported for text protocol."), [])

/-- Embedding of CasOperation::add_cas for TextProto (text.rs lines 209-211). -/
def TextProto.add_cas (p : TextProto T) (key value : List Nat)
    (flags expiration : Nat) :
    PanicOr (MemCachedResult Nat) × List StreamAction :=
  (.panics ("add_cas command no supported for text protocol."), [])

/-- Embedding of CasOperation::replace_cas for TextProto (text.rs lines
213-215). -/
def TextProto.replace_cas (p : TextProto T) (key value : List Nat)
    (flags expiration cas : Nat) :
    PanicOr (MemCachedResult Nat) × List StreamAction :=
  (.panics ("replace_cas command no supported for text protocol."), [])

/-- Embedding of CasOperation::get_cas for TextProto (text.rs lines 217-219). -/
def TextProto.get_cas (p : TextProto T) (key : List Nat) :
    PanicOr (MemCachedResult (List Nat × Nat × Nat)) × List StreamAction :=
  (.panics ("get_cas command no supported for text protocol."), [])

/-- Embedding of CasOperation::getk_cas for TextProto (text.rs lines 221-223). -/
def TextProto.getk_cas (p : TextProto T) (key : List Nat) :
    PanicOr (MemCachedResult (List Nat × List Nat × Nat × Nat)) × List StreamAction :=
  (.panics ("getk_cas command no supported for text protocol."), [])

/-- Embedding of CasOperation::increment_cas for TextProto (text.rs lines
225-234). -/
def TextProto.increment_cas (p : TextProto T) (key : List Nat)
    (amount initial : Nat) (expiration cas : Nat) :
    PanicOr (MemCachedResult (Nat × Nat)) × List StreamAction :=
  (.panics ("increment_cas command no supported for text protocol."), [])

/-- Embedding of CasOperation::decrement_cas for TextProto (text.rs lines
236-245). -/
def TextProto.decrement_cas (p : TextProto T) (key : List Nat)
    (amount initial : Nat) (expiration cas : Nat) :
    PanicOr (MemCachedResult (Nat × Nat)) × List StreamAction :=
  (.panics ("decrement_cas command no supported for text protocol."), [])

/-- Embedding of CasOperation::append_cas for TextProto (text.rs lines
247-249). -/
def TextProto.append_cas (p : TextProto T) (key value : List Nat) (cas : Nat) :
    PanicOr (MemCachedResult Nat) × List StreamAction :=
  (.panics ("append_cas command no supported for text protocol."), [])

/-- Embedding of CasOperation::prepend_cas for TextProto (text.rs lines
251-253). -/
def TextProto.prepend_cas (p : TextProto T) (key value : List Nat) (cas : Nat) :
    PanicOr (MemCachedResult Nat) × List StreamAction :=
  (.panics ("prepend_cas command no supported for text protocol."), [])

/-- Embedding of CasOperation::touch_cas for TextProto (text.rs lines
255-257). -/
def TextProto.touch_cas (p : TextProto T) (key : List Nat) (expiration cas : Nat) :
    PanicOr (MemCachedResult Nat) × List StreamAction :=
  (.panics ("touch_cas command no supported for text protocol."), [])

/-- Embedding of AuthOperation::list_mechanisms for TextProto (text.rs lines
261-263). -/
def TextProto.list_mechanisms (p : TextProto T) :
    PanicOr (MemCachedResult (List String)) × List StreamAction :=
  (.panics ("list_mechanisms command no supported for text protocol."), [])

/-- Embedding of AuthOperation::auth_start for TextProto (text.rs lines
265-267). -/
def TextProto.auth_start (p : TextProto T) (mech : String) (init : List Nat) :
    PanicOr (MemCachedResult AuthResponse) × List StreamAction :=
  (.panics ("auth_start command no supported for text protocol."), [])

/-- Embedding of AuthOperation::auth_continue for TextProto (text.rs lines
269-271). -/
def TextProto.auth_continue (p : TextProto T) (mech : String) (data : List Nat) :
    PanicOr (MemCachedResult AuthResponse) × List StreamAction :=
  (.panics ("auth_continue command no supported for text protocol."), [])

/-- Splits a header line at the first space: the leading token and the
remainder of the line.  A line without a space is all token. -/
def splitTok : List Char → List Char × List Char
  | [] => ([], [])
  | c :: cs =>
    if c = ' ' then ([], cs)
    else (c :: (splitTok cs).1, (splitTok cs).2)

/-- The header tokens the StatusOnly parser recognizes, in the order the
spec lists them. -/
def recognizedToks : List (List Char) :=
  [("STORED").toList, ("NOT_STORED").toList, ("EXISTS").toList,
   ("NOT_FOUND").toList, ("DELETED").toList, ("TOUCHED").toList,
   ("OK").toList, ("ERROR").toList, ("CLIENT_ERROR").toList,
   ("SERVER_ERROR").toList]

/-- Maps a StatusOnly header token (and the remainder of its line) to a
Status. -/
def statusOfTok (tok rest : List Char) : Status :=
  if tok = ("STORED").toList then .Stored
  else if tok = ("NOT_STORED").toList then .NotStored
  else if tok = ("EXISTS").toList then .Exists
  else if tok = ("NOT_FOUND").toList then .NotFound
  else if tok = ("DELETED").toList then .Deleted
  else if tok = ("TOUCHED").toList then .Touched
  else if tok = ("OK").toList then .Ok
  else if tok = ("ERROR").toList then .ProtocolError
  else if tok = ("CLIENT_ERROR").toList then .ClientError rest
  else if tok = ("SERVER_ERROR").toList then .ServerError rest
  else .ProtocolError

/-- Modelled from the spec: the StatusOnly reply parser belongs to the reply
parser component, which is absent from src/ (the text adapter there is a
stub); section 4.2 fixes the mapping of the single header line.  The line is
the CRLF-stripped header as delivered by the framer. -/
def parseStatusOnly (line : List Char) : Status :=
  statusOfTok (splitTok line).1 (splitTok line).2

/-- Embedding of the struct Error of src/src/proto/text.rs (lines 28-33):
a status, a static description, and an optional detail string. -/
structure Error where
  status : Status
  desc : String
  detail : Option String
deriving DecidableEq

/-- Embedding of Error::from_status (text.rs lines 36-42): stores the status,
its description, and the detail. -/
def Error.from_status (status : Status) (detail : Option String) : Error :=
  { status := status, desc := status.desc, detail := detail }

theorem splitTok_append (tok rest : List Char) (h : (' ') ∈ tok → False) :
    splitTok (tok ++ (' ') :: rest) = (tok, rest) := by
  induction tok with
  | nil => simp [splitTok]
  | cons c cs ih =>
    have hc : ¬ c = ' ' := fun hc => h (by simp [hc])
    have hcs : (' ') ∈ cs → False := fun hm => h (by simp [hm])
    simp [splitTok, hc, ih hcs]

theorem statusOfTok_other (tok rest : List Char) (h : tok ∉ recognizedToks) :
    statusOfTok tok rest = Status.ProtocolError := by
  have h1 : ¬ tok = ("STORED").toList := by
    intro e; exact h (show tok ∈ recognizedToks by rw [e]; decide)
  have h2 : ¬ tok = ("NOT_STORED").toList := by
    intro e; exact h (show tok ∈ recognizedToks by rw [e]; decide)
  have h3 : ¬ tok = ("EXISTS").toList := by
    intro e; exact h (show tok ∈ recognizedToks by rw [e]; decide)
  have h4 : ¬ tok = ("NOT_FOUND").toList := by
    intro e; exact h (show tok ∈ recognizedToks by rw [e]; decide)
  have h5 : ¬ tok = ("DELETED").toList := by
    intro e; exact h (show tok ∈ recognizedToks by rw [e]; decide)
  have h6 : ¬ tok = ("TOUCHED").toList := by
    intro e; exact h (show tok ∈ recognizedToks by rw [e]; decide)
  have h7 : ¬ tok = ("OK").toList := by
    intro e; exact h (show tok ∈ recognizedToks by rw [e]; decide)
  have h8 : ¬ tok = ("ERROR").toList := by
    intro e; exact h (show tok ∈ recognizedToks by rw [e]; decide)
  have h9 : ¬ tok = ("CLIENT_ERROR").toList := by
    intro e; exact h (show tok ∈ recognizedToks by rw [e]; decide)
  have h10 : ¬ tok = ("SERVER_ERROR").toList := by
    intro e; exact h (show tok ∈ recognizedToks by rw [e]; decide)
  unfold statusOfTok
  rw [if_neg h1, if_neg h2, if_neg h3, if_neg h4, if_neg h5, if_neg h6,
    if_neg h7, if_neg h8, if_neg h9, if_neg h10]

/-- Claim C5: the StatusOnly parser maps the single header line exactly by
its token: STORED to Stored, NOT_STORED to NotStored, EXISTS to Exists,
NOT_FOUND to NotFound, DELETED to Deleted, TOUCHED to Touched, OK to Ok,
ERROR to ProtocolError, CLIENT_ERROR msg to ClientError msg and
SERVER_ERROR msg to ServerError msg with the message preserved, and any
other token to ProtocolError. -/
theorem C5_parse_status_only_mapping :
    parseStatusOnly (("STORED").toList) = Status.Stored ∧
    parseStatusOnly (("NOT_STORED").toList) = Status.NotStored ∧
    parseStatusOnly (("EXISTS").toList) = Status.Exists ∧
    parseStatusOnly (("NOT_FOUND").toList) = Status.NotFound ∧
    parseStatusOnly (("DELETED").toList) = Status.Deleted ∧
    parseStatusOnly (("TOUCHED").toList) = Status.Touched ∧
    parseStatusOnly (("OK").toList) = Status.Ok ∧
    parseStatusOnly (("ERROR").toList) = Status.ProtocolError ∧
    (∀ msg : List Char,
      parseStatusOnly (("CLIENT_ERROR").toList ++ (' ') :: msg) =
        Status.ClientError msg) ∧
    (∀ msg : List Char,
      parseStatusOnly (("SERVER_ERROR").toList ++ (' ') :: msg) =
        Status.ServerError msg) ∧
    (∀ line : List Char, (splitTok line).1 ∉ recognizedToks →
      parseStatusOnly line = Status.ProtocolError) := by
  refine ⟨by decide, by decide, by decide, by decide, by decide, by decide,
    by decide, by decide, ?_, ?_, ?_⟩
  · intro msg
    have h := splitTok_append (("CLIENT_ERROR").toList) msg (by decide)
    unfold parseStatusOnly
    rw [h]
    rfl
  · intro msg
    have h := splitTok_append (("SERVER_ERROR").toList) msg (by decide)
    unfold parseStatusOnly
    rw [h]
    rfl
  · intro line h
    exact statusOfTok_other _ _ h

/-- Witness for claim C5: the unrecognized token conjunct applied to the
concrete header line BOGUS. -/
theorem C5_parse_status_only_mapping_witness :
    parseStatusOnly (("BOGUS").toList) = Status.ProtocolError :=
  C5_parse_status_only_mapping.2.2.2.2.2.2.2.2.2.2 (("BOGUS").toList) (by decide)

/-- Claim C1, counterexample: the abort raised by set does not carry the
message claimed by the spec; the code writes a different string (the
operation name, the word command, and the typo no supported). -/
theorem C1_counterexample_message_differs :
    (TextProto.set (TextProto.mk ()) [] [] 0 0).1 ≠
      PanicOr.panics ("not supported for text protocol") := by decide

/-- Claim C1 (amended): for every method of the Operation, ServerOperation,
MultiOperation, NoReplyOperation, CasOperation and AuthOperation contracts
on TextProto and for every input, invoking the method raises an abort whose
message is the method name followed by the literal text, with its typo,
command no supported for text protocol. — and performs no stream I/O. -/
theorem C1_every_contract_method_aborts :
    ∀ (T : Type) (p : TextProto T),
      (∀ key value flags expiration, TextProto.set p key value flags expiration =
        (.panics ("Set command no supported for text protocol."), [])) ∧
      (∀ key value flags expiration, TextProto.add p key value flags expiration =
        (.panics ("Add command no supported for text protocol."), [])) ∧
      (∀ key, TextProto.delete p key =
        (.panics ("Delete command no supported for text protocol."), [])) ∧
      (∀ key value flags expiration, TextProto.replace p key value flags expiration =
        (.panics ("Replace command no supported for text protocol."), [])) ∧
      (∀ key, TextProto.get p key =
        (.panics ("get command no supported for text protocol."), [])) ∧
      (∀ key, TextProto.getk p key =
        (.panics ("getk command no supported for text protocol."), [])) ∧
      (∀ key amount initial expiration,
        TextProto.increment p key amount initial expiration =
        (.panics ("increment command no supported for text protocol."), [])) ∧
      (∀ key amount initial expiration,
        TextProto.decrement p key amount initial expiration =
        (.panics ("decrement command no supported for text protocol."), [])) ∧
      (∀ key value, TextProto.append p key value =
        (.panics ("append command no supported for text protocol."), [])) ∧
      (∀ key value, TextProto.prepend p key value =
        (.panics ("prepend command no supported for text protocol."), [])) ∧
      (∀ key expiration, TextProto.touch p key expiration =
        (.panics ("touch command no supported for text protocol."), [])) ∧
      (TextProto.quit p =
        (.panics ("quit command no supported for text protocol."), [])) ∧
      (∀ expiration, TextProto.flush p expiration =
        (.panics ("flush command no supported for text protocol."), [])) ∧
      (TextProto.noop p =
        (.panics ("noop command no supported for text protocol."), [])) ∧
      (TextProto.version p =
        (.panics ("version command no supported for text protocol."), [])) ∧
      (TextProto.stat p =
        (.panics ("stat command no supported for text protocol."), [])) ∧
      (∀ kv, TextProto.set_multi p kv =
        (.panics ("set_multi command no supported for text protocol."), [])) ∧
      (∀ keys, TextProto.delete_multi p keys =
        (.panics ("delete_multi command no supported for text protocol."), [])) ∧
      (∀ kv, TextProto.increment_multi p kv =
        (.panics ("increment_multi command no supported for text protocol."), [])) ∧
      (∀ keys, TextProto.get_multi p keys =
        (.panics ("get_multi command no supported for text protocol."), [])) ∧
      (∀ key value flags expiration,
        TextProto.set_noreply p key value flags expiration =
        (.panics ("set_noreply command no supported for text protocol."), [])) ∧
      (∀ key value flags expiration,
        TextProto.add_noreply p key value flags expiration =
        (.panics ("add_noreply command no supported for text protocol."), [])) ∧
      (∀ key, TextProto.delete_noreply p key =
        (.panics ("delete_noreply command no supported for text protocol."), [])) ∧
      (∀ key value flags expiration,
        TextProto.replace_noreply p key value flags expiration =
        (.panics ("replace_noreply command no supported for text protocol."), [])) ∧
      (∀ key amount initial expiration,
        TextProto.increment_noreply p key amount initial expiration =
        (.panics ("increment_noreply command no supported for text protocol."), [])) ∧
      (∀ key amount initial expiration,
        TextProto.decrement_noreply p key amount initial expiration =
        (.panics ("decrement_noreply command no supported for text protocol."), [])) ∧
      (∀ key value, TextProto.append_noreply p key value =
        (.panics ("append_noreply command no supported for text protocol."), [])) ∧
      (∀ key value, TextProto.prepend_noreply p key value =
        (.panics ("prepend_noreply command no supported for text protocol."), [])) ∧
      (∀ key value flags expiration cas,
        TextProto.set_cas p key value flags expiration cas =
        (.panics ("set_cas command no supported for text protocol."), [])) ∧
      (∀ key value flags expiration,
        TextProto.add_cas p key value flags expiration =
        (.panics ("add_cas command no supported for text protocol."), [])) ∧
      (∀ key value flags expiration cas,
        TextProto.replace_cas p key value flags expiration cas =
        (.panics ("replace_cas command no supported for text protocol."), [])) ∧
      (∀ key, TextProto.get_cas p key =
        (.panics ("get_cas command no supported for text protocol."), [])) ∧
      (∀ key, TextProto.getk_cas p key =
        (.panics ("getk_cas command no supported for text protocol."), [])) ∧
      (∀ key amount initial expiration cas,
        TextProto.increment_cas p key amount initial expiration cas =
        (.panics ("increment_cas command no supported for text protocol."), [])) ∧
      (∀ key amount initial expiration cas,
        TextProto.decrement_cas p key amount initial expiration cas =
        (.panics ("decrement_cas command no supported for text protocol."), [])) ∧
      (∀ key value cas, TextProto.append_cas p key value cas =
        (.panics ("append_cas command no supported for text protocol."), [])) ∧
      (∀ key value cas, TextProto.prepend_cas p key value cas =
        (.panics ("prepend_cas command no supported for text protocol."), [])) ∧
      (∀ key expiration cas, TextProto.touch_cas p key expiration cas =
        (.panics ("touch_cas command no supported for text protocol."), [])) ∧
      (TextProto.list_mechanisms p =
        (.panics ("list_mechanisms command no supported for text protocol."), [])) ∧
      (∀ mech init, TextProto.auth_start p mech init =
        (.panics ("auth_start command no supported for text protocol."), [])) ∧
      (∀ mech data, TextProto.auth_continue p mech data =
        (.panics ("auth_continue command no supported for text protocol."), [])) := by
  intro T p
  refine ⟨?_, ?_, ?_, ?_, ?_, ?_, ?_, ?_, ?_, ?_, ?_, ?_, ?_, ?_, ?_, ?_, ?_,
    ?_, ?_, ?_, ?_, ?_, ?_, ?_, ?_, ?_, ?_, ?_, ?_, ?_, ?_, ?_, ?_, ?_, ?_,
    ?_, ?_, ?_, ?_, ?_, ?_⟩ <;> intros <;> rfl

/-- Claim C2: the operations the spec lists as Unsupported on the text
protocol do not return the Unsupported error status; evaluated at concrete
inputs, each aborts with the stub message (the empty action list shows no
stream I/O happens before the abort). -/
theorem C2_unsupported_ops_abort_instead :
    TextProto.add_cas (TextProto.mk ()) [97] [98] 0 0 =
      (.panics ("add_cas command no supported for text protocol."), []) ∧
    TextProto.increment_cas (TextProto.mk ()) [97] 1 0 0 0 =
      (.panics ("increment_cas command no supported for text protocol."), []) ∧
    TextProto.decrement_cas (TextProto.mk ()) [97] 1 0 0 0 =
      (.panics ("decrement_cas command no supported for text protocol."), []) ∧
    TextProto.touch_cas (TextProto.mk ()) [97] 0 0 =
      (.panics ("touch_cas command no supported for text protocol."), []) ∧
    TextProto.append_cas (TextProto.mk ()) [97] [98] 0 =
      (.panics ("append_cas command no supported for text protocol."), []) ∧
    TextProto.prepend_cas (TextProto.mk ()) [97] [98] 0 =
      (.panics ("prepend_cas command no supported for text protocol."), []) ∧
    TextProto.noop (TextProto.mk ()) =
      (.panics ("noop command no supported for text protocol."), []) ∧
    TextProto.list_mechanisms (TextProto.mk ()) =
      (.panics ("list_mechanisms command no supported for text protocol."), []) ∧
    TextProto.auth_start (TextProto.mk ()) ("PLAIN") [] =
      (.panics ("auth_start command no supported for text protocol."), []) ∧
    TextProto.auth_continue (TextProto.mk ()) ("PLAIN") [] =
      (.panics ("auth_continue command no supported for text protocol."), []) :=
  ⟨rfl, rfl, rfl, rfl, rfl, rfl, rfl, rfl, rfl, rfl⟩

/-- Claim C3: the adapter holds no poisoned state at all — over a unit
stream its state space is a single point, the bare stream — and an
operation never returns a Protocol or Io error to begin with: it aborts at
once, shown here for get. -/
theorem C3_no_poisoned_state_in_adapter :
    (∀ a : TextProto Unit, a = TextProto.mk ()) ∧
    TextProto.get (TextProto.mk ()) [107] =
      (.panics ("get command no supported for text protocol."), []) := by
  constructor
  · intro a
    cases a with
    | mk s => cases s; rfl
  · rfl

/-- Claim C4: the set half of the claimed set-then-get round trip aborts
immediately on the concrete key foo and value bar, so the round trip never
reaches the server. -/
theorem C4_set_aborts_before_roundtrip :
    TextProto.set (TextProto.mk ()) [102, 111, 111] [98, 97, 114] 0 0 =
      (.panics ("Set command no supported for text protocol."), []) := rfl

/-- Claim C6: increment with an initial value aborts at once on the
concrete key c, amount 1, initial 5; no add emulation or retry is ever
issued (the empty action list shows no bytes reach the stream). -/
theorem C6_increment_aborts_without_emulation :
    TextProto.increment (TextProto.mk ()) [99] 1 5 0 =
      (.panics ("increment command no supported for text protocol."), []) := rfl

/-- Claim C7: on the empty key — which the claim says must be rejected with
InvalidArgument at encode time — set aborts with the stub message instead,
and in particular does not return an InvalidArgument error. -/
theorem C7_empty_key_aborts_not_invalid_argument :
    TextProto.set (TextProto.mk ()) [] [118] 0 0 =
      (.panics ("Set command no supported for text protocol."), []) ∧
    (TextProto.set (TextProto.mk ()) [] [118] 0 0).1 ≠
      PanicOr.ok (.err ProtoError.invalidArgument) :=
  ⟨rfl, by decide⟩

/-- Claim C8: decrement aborts at once on the concrete key k and amount 3;
no saturating value max(0, m - 3) is ever computed or returned. -/
theorem C8_decrement_aborts_no_saturation :
    TextProto.decrement (TextProto.mk ()) [107] 3 0 0 =
      (.panics ("decrement command no supported for text protocol."), []) := rfl

/-- Claim C9: construction always succeeds, the stream field of the result
is exactly the argument, and the action list is empty: no reads, writes or
flushes are performed. -/
theorem C9_new_stores_stream_no_io :
    ∀ (T : Type) (s : T),
      TextProto.new s = ({ stream := s }, ([] : List StreamAction)) :=
  fun T s => rfl

/-- Claim C10: the Error built by from_status stores exactly the given
status, exactly the given optional detail (returned unchanged by the
detail getter), and a description equal to the status description. -/
theorem C10_from_status_field_contract :
    ∀ (s : Status) (d : Option String),
      (Error.from_status s d).status = s ∧
      (Error.from_status s d).detail = d ∧
      (Error.from_status s d).desc = Status.desc s :=
  fun s d => ⟨rfl, rfl, rfl⟩

end Memcached
